import Mathlib

/-!
Verification of the goalsa ALSA bindings against their specification.

The repository ships two variants of the same package: the primary file
`alsa.go` and an alternate file (the unnamed source part).  Definitions
embedding the alternate variant carry a `V0` suffix.  Modelling
conventions:

* Go integer arithmetic on `int` / `C.long` is modelled on `Int`; Go's
  integer division truncates toward zero, which is `Int.tdiv`.
* A Go run-time panic (division by zero, index out of range on an empty
  slice) is modelled by `Option`, the panic being `none`.
* Calls into the ALSA backend are external: each backend response is an
  explicit input (an `Int` status or an `Except String` value whose
  string is the backend's strerror text), and the model records which
  backend calls the wrapper performed.
-/

namespace Goalsa

/-- Sample formats supported by ALSA, as enumerated in both variants
(`SampleFormat` in alsa.go, `Format` in the alternate variant). -/
inductive SampleFormat
  | s8 | u8
  | s16le | s16be | u16le | u16be
  | s24le | s24be | u24le | u24be
  | s32le | s32be | u32le | u32be
  | floatle | floatbe
  | float64le | float64be
deriving DecidableEq

/-- Byte width of a sample format: the `formatSampleSize` switch
(alsa.go lines 166-178, alternate variant lines 162-174).  The source's
final `panic("unsupported format")` is unreachable because the switch
covers every enumerated format. -/
def formatSampleSize : SampleFormat → Int
  | .s8 | .u8 => 1
  | .s16le | .s16be | .u16le | .u16be => 2
  | .s24le | .s24be | .u24le | .u24be
  | .s32le | .s32be | .u32le | .u32be | .floatle | .floatbe => 4
  | .float64le | .float64be => 8

/-- The error values the bindings can return: the dedicated sentinel
errors `ErrOverrun`, `ErrUnderrun`, `ErrSize`; `createError` results
(message plus backend status code); and plain `errors.New` messages. -/
inductive AlsaError
  | overrun
  | underrun
  | size
  | backend (msg : String) (code : Int)
  | plain (msg : String)
deriving DecidableEq

/-- `AudioParams` from alsa.go (lines 65-69). -/
structure AudioParams where
  Channels : Int
  SamplingRate : Int
  Format : SampleFormat
deriving DecidableEq

/-- `BufferParams` (buffering hint), shared by both variants, and also
the shape of the negotiated layout the device records (`d.BufferParams`). -/
structure BufferParams where
  BufferFrames : Int
  PeriodFrames : Int
  Periods : Int
deriving DecidableEq

/-! ## Master volume -/

/-- The native value alsa.go's `SetMasterVolume` passes to
`snd_mixer_selem_set_playback_volume_all` (lines 225-227):
`vol := volume; total := max - min; vol = vol*total/100 + min`. -/
def setMasterVolumeNative (volume min max : Int) : Int :=
  let vol := volume
  let total := max - min
  Int.tdiv (vol * total) 100 + min

/-- The native value the alternate variant's `SetMasterVolume` passes to
`snd_mixer_selem_set_playback_volume_all` (lines 221-222):
`vol*max/100`; the queried `min` is never used. -/
def setMasterVolumeNativeV0 (volume _min max : Int) : Int :=
  let vol := volume
  Int.tdiv (vol * max) 100

/-- The percent computation of `GetMasterVolume`, identical in both
variants (alsa.go lines 283-286, alternate variant lines 278-281):
`outvol -= min; max -= min; outvol = 100 * outvol / max`.  The division
is unguarded in the source; `none` models the Go run-time panic when the
shifted `max` is zero. -/
def getMasterVolumePercent (outvol min max : Int) : Option Int :=
  let outvol := outvol - min
  let max := max - min
  if max = 0 then none
  else some (Int.tdiv (100 * outvol) max)

/-- Set-then-get round trip for the alsa.go variant, under the
assumption that the backend stores the set native value and returns it
unchanged from `snd_mixer_selem_get_playback_volume`. -/
def volumeRoundTrip (p min max : Int) : Option Int :=
  getMasterVolumePercent (setMasterVolumeNative p min max) min max

/-! ## Stream transfer -/

/-- The `EPIPE` errno (Linux value 32), compared against the negated
backend status in `Read` and `Write`. -/
def EPIPE : Int := 32

/-- Observable outcome of one transfer call: whether the backend
transfer (`snd_pcm_readi` / `snd_pcm_writei`) was invoked, whether
`snd_pcm_prepare` re-armed the stream, the sample count returned, and
the error returned. -/
structure TransferResult where
  transferCalled : Bool
  prepared : Bool
  samples : Int
  err : Option AlsaError
deriving DecidableEq

/-- Status handling of a capture read, shared verbatim by both variants
(alsa.go lines 307-315): `ret` is the `snd_pcm_readi` status. -/
def readOutcome (channels ret : Int) : TransferResult :=
  if ret = -EPIPE then ⟨true, true, 0, some .overrun⟩
  else if ret < 0 then ⟨true, false, 0, some (.backend "read error" ret)⟩
  else ⟨true, false, ret * channels, none⟩

/-- Status handling of a playback write, shared verbatim by both
variants (alsa.go lines 336-345): `ret` is the `snd_pcm_writei`
status. -/
def writeOutcome (channels ret : Int) : TransferResult :=
  if ret = -EPIPE then ⟨true, true, 0, some .underrun⟩
  else if ret < 0 then ⟨true, false, 0, some (.backend "write error" ret)⟩
  else ⟨true, false, ret * channels, none⟩

/-- alsa.go `Read` (lines 305-316).  The buffer is a `[]byte` of length
`bufLen`; only its length and first-element address are used.  `none`
models a Go panic: division by zero in `len(buffer) / c.Audio.Channels`
when `Channels` is zero (line 306), or index out of range in
`&buffer[0]` when the buffer is empty (line 307). -/
def Read (audio : AudioParams) (bufLen : Nat) (ret : Int) : Option TransferResult :=
  if audio.Channels = 0 then none
  else if bufLen = 0 then none
  else some (readOutcome audio.Channels ret)

/-- alsa.go `Write` (lines 334-346), mirrored from `Read`.  Note that
the negotiated sample format is not consulted: no element-width
validation exists in this variant. -/
def Write (audio : AudioParams) (bufLen : Nat) (ret : Int) : Option TransferResult :=
  if audio.Channels = 0 then none
  else if bufLen = 0 then none
  else some (writeOutcome audio.Channels ret)

/-- The reflect `Kind` of the caller's buffer element type in the
alternate variant, together with the byte width of that kind.  The
kinds the source's switch names get their own constructors; every other
kind (e.g. `uint16`, width 2) falls into `other`, which carries the
kind's byte width so that width claims can be stated about it. -/
inductive ElemKind
  | int8 | int16 | int32 | float32 | float64
  | other (width : Int)
deriving DecidableEq

/-- Byte width of a buffer element kind. -/
def elemWidth : ElemKind → Int
  | .int8 => 1
  | .int16 => 2
  | .int32 | .float32 => 4
  | .float64 => 8
  | .other w => w

/-- Whether the element kind is one the alternate variant's switch
handles with a width check (rather than the default case). -/
def supportedElem : ElemKind → Bool
  | .other _ => false
  | _ => true

/-- Device fields of the alternate variant used by `Read`/`Write`. -/
structure DeviceV0 where
  Channels : Int
  Format : SampleFormat
deriving DecidableEq

/-- The element-kind switch of the alternate variant's `Read`
(lines 306-325): each named kind compares `formatSampleSize` against
its width and yields `ErrSize` on mismatch; any other kind yields the
generic unsupported message. -/
def readSizeCheck (format : SampleFormat) (k : ElemKind) : Option AlsaError :=
  match k with
  | .int8 => if formatSampleSize format ≠ 1 then some .size else none
  | .int16 => if formatSampleSize format ≠ 2 then some .size else none
  | .int32 | .float32 => if formatSampleSize format ≠ 4 then some .size else none
  | .float64 => if formatSampleSize format ≠ 8 then some .size else none
  | .other _ => some (.plain "Unsupported sample format")

/-- The element-kind switch of the alternate variant's `Write`
(lines 368-387); identical to the read switch except for the default
message. -/
def writeSizeCheck (format : SampleFormat) (k : ElemKind) : Option AlsaError :=
  match k with
  | .int8 => if formatSampleSize format ≠ 1 then some .size else none
  | .int16 => if formatSampleSize format ≠ 2 then some .size else none
  | .int32 | .float32 => if formatSampleSize format ≠ 4 then some .size else none
  | .float64 => if formatSampleSize format ≠ 8 then some .size else none
  | .other _ => some (.plain "Write does not support this format")

/-- Alternate-variant `Read` (lines 300-344).  `isSlice` says whether
the reflect kind of the buffer itself is Array or Slice; `bufLen` is
`val.Len()`.  After the checks pass, `length / c.Channels` (panic when
`Channels` is zero, line 331) and `sliceData.Index(0)` (panic when the
buffer is empty, line 332) run before `snd_pcm_readi`. -/
def ReadV0 (d : DeviceV0) (isSlice : Bool) (k : ElemKind) (bufLen : Nat) (ret : Int) :
    Option TransferResult :=
  if !isSlice then some ⟨false, false, 0, some (.plain "Read requires an array type")⟩
  else
    match readSizeCheck d.Format k with
    | some e => some ⟨false, false, 0, some e⟩
    | none =>
      if d.Channels = 0 then none
      else if bufLen = 0 then none
      else some (readOutcome d.Channels ret)

/-- Alternate-variant `Write` (lines 362-405), mirrored from `ReadV0`. -/
def WriteV0 (d : DeviceV0) (isSlice : Bool) (k : ElemKind) (bufLen : Nat) (ret : Int) :
    Option TransferResult :=
  if !isSlice then some ⟨false, false, 0, some (.plain "Write requires an array type")⟩
  else
    match writeSizeCheck d.Format k with
    | some e => some ⟨false, false, 0, some e⟩
    | none =>
      if d.Channels = 0 then none
      else if bufLen = 0 then none
      else some (writeOutcome d.Channels ret)

/-! ## Hardware-parameter negotiation -/

/-- Period-length resolution inside the negotiation (alsa.go
`initDevice` lines 127-133, alternate variant `createDevice` lines
125-131): default to `rate / 8`, overridden by a positive
`PeriodFrames` hint, else derived as `bufferSize / Periods` when the
`Periods` hint is positive. -/
def resolvePeriodFrames (rate bufferSize : Int) (bufferParams : BufferParams) : Int :=
  let periodFrames : Int := Int.tdiv rate 8
  if bufferParams.PeriodFrames > 0 then bufferParams.PeriodFrames
  else if bufferParams.Periods > 0 then Int.tdiv bufferSize bufferParams.Periods
  else periodFrames

/-- Backend responses consumed by one run of the negotiation.  Each
field is the outcome of the corresponding ALSA call; the string of an
`error` is the backend's strerror text.  `setBufferSizeNear` maps the
requested buffer size to the accepted one; `setPeriodSizeNear` maps the
(accepted buffer size, requested period size) pair to the accepted
period size; `getPeriods` reports the period count the backend derives
for the configuration. -/
structure HwBackend where
  hwOpen : Except String Unit
  hwParamsMalloc : Except String Unit
  hwParamsAny : Except String Unit
  setAccess : Except String Unit
  setFormat : Except String Unit
  setChannels : Except String Unit
  setRate : Except String Unit
  getBufferSizeMax : Except String Int
  setBufferSizeNear : Int → Except String Int
  setPeriodSizeNear : Int → Int → Except String Int
  getPeriods : Int → Int → Except String Int
  hwParamsCommit : Except String Unit

/-- `createError` (both variants): prefix the step message onto the
backend's strerror text. -/
def checkStep {α : Type} (msg : String) : Except String α → Except String α
  | .ok a => .ok a
  | .error s => .error (msg ++ ": " ++ s)

/-- The negotiation sequence of alsa.go `initDevice` (lines 84-150);
the alternate variant's `createDevice` (lines 82-150) is identical in
every step modelled here.  On success the returned `BufferParams` is
the negotiated layout stored into `d.BufferParams`: the accepted buffer
size, the accepted period size, and the backend-reported period
count. -/
def initDevice (B : HwBackend) (deviceName : String) (audio : AudioParams)
    (bufferParams : BufferParams) : Except String BufferParams :=
  match B.hwOpen with
  | .error _ => .error ("could not open ALSA device " ++ deviceName)
  | .ok _ =>
    match checkStep "could not alloc hw params" B.hwParamsMalloc with
    | .error e => .error e
    | .ok _ =>
      match checkStep "could not set default hw params" B.hwParamsAny with
      | .error e => .error e
      | .ok _ =>
        match checkStep "could not set access params" B.setAccess with
        | .error e => .error e
        | .ok _ =>
          match checkStep "could not set format params" B.setFormat with
          | .error e => .error e
          | .ok _ =>
            match checkStep "could not set channels params" B.setChannels with
            | .error e => .error e
            | .ok _ =>
              match checkStep "could not set rate params" B.setRate with
              | .error e => .error e
              | .ok _ =>
                match (if bufferParams.BufferFrames = 0 then
                    checkStep "could not get buffer size" B.getBufferSizeMax
                  else
                    .ok bufferParams.BufferFrames) with
                | .error e => .error e
                | .ok requested =>
                  match checkStep "could not set buffer size"
                      (B.setBufferSizeNear requested) with
                  | .error e => .error e
                  | .ok bufferSize =>
                    match checkStep "could not set period size"
                        (B.setPeriodSizeNear bufferSize
                          (resolvePeriodFrames audio.SamplingRate bufferSize
                            bufferParams)) with
                    | .error e => .error e
                    | .ok periodFrames =>
                      match checkStep "could not get periods"
                          (B.getPeriods bufferSize periodFrames) with
                      | .error e => .error e
                      | .ok periods =>
                        match checkStep "could not set hw params" B.hwParamsCommit with
                        | .error e => .error e
                        | .ok _ => .ok ⟨bufferSize, periodFrames, periods⟩

/-! ## Close -/

/-- The only device state `Close` reads and writes: the opaque backend
handle, present or nil. -/
structure DeviceHandleState where
  h : Option Unit
deriving DecidableEq

/-- Observable outcome of alsa.go `Close`: the updated state, the
returned error, which backend calls ran, and whether the finalizer was
cancelled (`runtime.SetFinalizer(d, nil)`). -/
structure CloseOutcome where
  st : DeviceHandleState
  err : Option String
  drainCalled : Bool
  closeCalled : Bool
  finalizerCleared : Bool
deriving DecidableEq

/-- alsa.go `Close` (lines 153-164).  `closeRet` is the
`snd_pcm_close` status when that call is made (its strerror text on
failure).  On failure the function returns early: the handle is not
cleared and the finalizer is not cancelled. -/
def Close (d : DeviceHandleState) (closeRet : Except String Unit) : CloseOutcome :=
  match d.h with
  | some _ =>
    match closeRet with
    | .error s => ⟨d, some ("Error closing device handle: " ++ s), true, true, false⟩
    | .ok _ => ⟨⟨none⟩, none, true, true, true⟩
  | none => ⟨d, none, false, false, true⟩

/-- Outcome of the alternate variant's `Close`, which returns nothing. -/
structure CloseOutcomeV0 where
  st : DeviceHandleState
  drainCalled : Bool
  closeCalled : Bool
deriving DecidableEq

/-- Alternate-variant `Close` (lines 152-160): the `snd_pcm_close`
status is ignored, the handle is always cleared when present, and no
error can be surfaced (the function has no return value). -/
def CloseV0 (d : DeviceHandleState) : CloseOutcomeV0 :=
  match d.h with
  | some _ => ⟨⟨none⟩, true, true⟩
  | none => ⟨d, false, false⟩

/-! ## Theorems -/

/-- C1 counterexample: the claim does not hold of the alternate
variant's `SetMasterVolume`.  For percent 50 and native range
[10, 110] it applies the native value 55, while the claimed formula
`min + p*(max-min)/100` gives 60. -/
theorem setMasterVolumeV0_ignores_min :
    setMasterVolumeNativeV0 50 10 110 = 55 ∧
    10 + Int.tdiv (50 * (110 - 10)) 100 = 60 ∧
    (55 : Int) < 60 := by decide

/-- C1 (amended): for every percent and backend range, the alsa.go
`SetMasterVolume` applies the native value `min + p*(max-min)/100` to
all channels; the alternate variant applies `p*max/100`, which agrees
with that formula exactly when the range minimum is zero. -/
theorem setMasterVolume_linear_map (p min max : Int) :
    setMasterVolumeNative p min max = min + Int.tdiv (p * (max - min)) 100 ∧
    (min = 0 → setMasterVolumeNativeV0 p min max = min + Int.tdiv (p * (max - min)) 100) := by
  constructor
  · simp [setMasterVolumeNative, add_comm]
  · intro h
    subst h
    simp [setMasterVolumeNativeV0]

/-- C1 witness: the amended theorem applied at p = 50, range [0, 100]. -/
theorem setMasterVolume_linear_map_witness :
    setMasterVolumeNative 50 0 100 = 0 + Int.tdiv (50 * (100 - 0)) 100 ∧
    setMasterVolumeNativeV0 50 0 100 = 0 + Int.tdiv (50 * (100 - 0)) 100 :=
  ⟨(setMasterVolume_linear_map 50 0 100).1, (setMasterVolume_linear_map 50 0 100).2 rfl⟩

/-- C2: when the backend transfer reports EPIPE, `Read` re-arms the
stream with `snd_pcm_prepare` before returning, returns zero samples,
and returns the dedicated `ErrOverrun`; `Write` does the same with
`ErrUnderrun`; both sentinels are distinct from every generic
`createError` result. -/
theorem transfer_epipe_rearms_and_reports (audio : AudioParams) (bufLen : Nat)
    (hch : audio.Channels ≠ 0) (hbuf : bufLen ≠ 0) :
    Read audio bufLen (-EPIPE) = some ⟨true, true, 0, some .overrun⟩ ∧
    Write audio bufLen (-EPIPE) = some ⟨true, true, 0, some .underrun⟩ ∧
    (∀ msg code, AlsaError.overrun ≠ .backend msg code ∧
      AlsaError.underrun ≠ .backend msg code) := by
  refine ⟨?_, ?_, fun msg code => ⟨fun h => AlsaError.noConfusion h,
    fun h => AlsaError.noConfusion h⟩⟩
  · simp [Read, readOutcome, hch, hbuf]
  · simp [Write, writeOutcome, hch, hbuf]

/-- C2 witness: the theorem applied to a stereo device and an
8-byte buffer. -/
theorem transfer_epipe_witness :
    Read ⟨2, 44100, .s16le⟩ 8 (-EPIPE) = some ⟨true, true, 0, some .overrun⟩ ∧
    Write ⟨2, 44100, .s16le⟩ 8 (-EPIPE) = some ⟨true, true, 0, some .underrun⟩ :=
  ⟨(transfer_epipe_rearms_and_reports ⟨2, 44100, .s16le⟩ 8 (by decide) (by decide)).1,
   (transfer_epipe_rearms_and_reports ⟨2, 44100, .s16le⟩ 8 (by decide) (by decide)).2.1⟩

/-- C3: after a `Close` that returned no error the handle is nil, and
every subsequent `Close` is a no-op: no error, no drain, no release of
the backend handle (and the same holds of the alternate variant's
`Close`, which can never error). -/
theorem close_idempotent (d : DeviceHandleState) (r1 r2 : Except String Unit)
    (hok : (Close d r1).err = none) :
    (Close d r1).st.h = none ∧
    Close (Close d r1).st r2 = ⟨(Close d r1).st, none, false, false, true⟩ ∧
    CloseV0 (CloseV0 d).st = ⟨(CloseV0 d).st, false, false⟩ := by
  obtain ⟨h⟩ := d
  cases h with
  | none => cases r1 <;> simp [Close, CloseV0]
  | some u =>
    cases r1 with
    | error s => simp [Close] at hok
    | ok u2 => simp [Close, CloseV0]

/-- C3 witness: a device closed successfully, then closed again with a
backend that would fail; the second call is a no-op. -/
theorem close_idempotent_witness :
    (Close ⟨some ()⟩ (.ok ())).st.h = none ∧
    Close (Close ⟨some ()⟩ (.ok ())).st (.error "e") =
      ⟨(Close ⟨some ()⟩ (.ok ())).st, none, false, false, true⟩ ∧
    CloseV0 (CloseV0 ⟨some ()⟩).st = ⟨(CloseV0 ⟨some ()⟩).st, false, false⟩ :=
  close_idempotent ⟨some ()⟩ (.ok ()) (.error "e") (by decide)

/-- C4: the requested period length is resolved exactly by the claimed
rule: a positive `PeriodFrames` hint wins outright; otherwise a
positive `Periods` hint yields `bufferSize / Periods` by integer
division; otherwise the default `rate / 8` is used. -/
theorem period_resolution_rule (rate bufferSize : Int) (bp : BufferParams) :
    (0 < bp.PeriodFrames → resolvePeriodFrames rate bufferSize bp = bp.PeriodFrames) ∧
    (bp.PeriodFrames ≤ 0 → 0 < bp.Periods →
      resolvePeriodFrames rate bufferSize bp = Int.tdiv bufferSize bp.Periods) ∧
    (bp.PeriodFrames ≤ 0 → bp.Periods ≤ 0 →
      resolvePeriodFrames rate bufferSize bp = Int.tdiv rate 8) := by
  refine ⟨fun h => ?_, fun h1 h2 => ?_, fun h1 h2 => ?_⟩ <;>
    simp only [resolvePeriodFrames] <;> split_ifs <;> first | rfl | omega

/-- C4 witness: with no period-frame hint and a period count of 4 on a
16384-frame buffer, the period length is 16384 / 4. -/
theorem period_resolution_rule_witness :
    resolvePeriodFrames 44100 16384 ⟨0, 0, 4⟩ = Int.tdiv 16384 4 :=
  (period_resolution_rule 44100 16384 ⟨0, 0, 4⟩).2.1 (by decide) (by decide)

/-- C5: for every successful negotiation, the `Periods` field of the
resulting layout is exactly the value returned by the backend's
period-count query at the accepted buffer and period sizes — never a
count recomputed locally — and, provided the backend's
nearest-adjustment keeps the accepted period size within the accepted
buffer size (the ALSA contract), the negotiated buffer length is at
least the negotiated period length. -/
theorem periods_from_backend (B : HwBackend) (deviceName : String) (audio : AudioParams)
    (bp L : BufferParams)
    (hok : initDevice B deviceName audio bp = .ok L)
    (hnear : ∀ b q r, B.setPeriodSizeNear b q = .ok r → r ≤ b) :
    B.getPeriods L.BufferFrames L.PeriodFrames = .ok L.Periods ∧
    L.PeriodFrames ≤ L.BufferFrames := by
  obtain ⟨o, pm, pa, sa, sf, sc, sr, gmax, sbn, spn, gp, com⟩ := B
  obtain ⟨LB, LP, LN⟩ := L
  simp only [initDevice] at hok
  rcases o with s | u
  · simp at hok
  rcases pm with s | u1
  · simp [checkStep] at hok
  rcases pa with s | u2
  · simp [checkStep] at hok
  rcases sa with s | u3
  · simp [checkStep] at hok
  rcases sf with s | u4
  · simp [checkStep] at hok
  rcases sc with s | u5
  · simp [checkStep] at hok
  rcases sr with s | u6
  · simp [checkStep] at hok
  rcases hreq : (if bp.BufferFrames = 0 then
      checkStep "could not get buffer size" gmax
    else
      .ok bp.BufferFrames : Except String Int) with s | req
  · simp only [hreq] at hok
    simp [checkStep] at hok
  simp only [hreq] at hok
  rcases hbuf : sbn req with s | bufferSize
  · simp [hbuf, checkStep] at hok
  simp only [hbuf, checkStep] at hok
  rcases hper : spn bufferSize (resolvePeriodFrames audio.SamplingRate bufferSize bp)
      with s | periodFrames
  · simp [hper, checkStep] at hok
  simp only [hper, checkStep] at hok
  rcases hgp : gp bufferSize periodFrames with s | periods
  · simp [hgp, checkStep] at hok
  simp only [hgp, checkStep] at hok
  rcases com with s | u7
  · simp [checkStep] at hok
  simp only [checkStep, Except.ok.injEq, BufferParams.mk.injEq] at hok
  obtain ⟨h1, h2, h3⟩ := hok
  subst h1
  subst h2
  subst h3
  exact ⟨hgp, hnear _ _ _ hper⟩

/-- C5 witness: a backend that accepts the requested sizes, clamps the
period to the buffer, and reports the quotient as its period count. -/
theorem periods_from_backend_witness :
    HwBackend.getPeriods
      ⟨.ok (), .ok (), .ok (), .ok (), .ok (), .ok (), .ok (), .ok 16384,
        fun b => .ok b, fun b q => .ok (min q b), fun b q => .ok (Int.tdiv b q), .ok ()⟩
      ((⟨16384, 5512, 2⟩ : BufferParams).BufferFrames)
      ((⟨16384, 5512, 2⟩ : BufferParams).PeriodFrames) =
      .ok ((⟨16384, 5512, 2⟩ : BufferParams).Periods) ∧
    ((⟨16384, 5512, 2⟩ : BufferParams).PeriodFrames : Int) ≤
      (⟨16384, 5512, 2⟩ : BufferParams).BufferFrames :=
  periods_from_backend
    ⟨.ok (), .ok (), .ok (), .ok (), .ok (), .ok (), .ok (), .ok 16384,
      fun b => .ok b, fun b q => .ok (min q b), fun b q => .ok (Int.tdiv b q), .ok ()⟩
    "default" ⟨2, 44100, .s16le⟩ ⟨0, 0, 0⟩ ⟨16384, 5512, 2⟩
    rfl
    (fun b q r h => by
      simp only [Except.ok.injEq] at h
      subst h
      exact min_le_right q b)

/-- C6 counterexample: the claim fails on the alsa.go variant.  With a
negotiated format of width 2 (S16LE), a `[]byte` buffer (element width
1, a mismatch) is transferred anyway: the backend write is invoked and
no size-mismatch error is returned (that variant defines no `ErrSize`
at all). -/
theorem write_bytes_no_width_check :
    formatSampleSize SampleFormat.s16le = 2 ∧
    Write ⟨1, 44100, .s16le⟩ 4 4 = some ⟨true, false, 4, none⟩ := by decide

/-- C6 (amended): in the typed-buffer variant, a `Read` or `Write`
whose element kind is one of the five kinds the switch supports and
whose byte width differs from the negotiated format's width returns the
dedicated `ErrSize` with the backend transfer never invoked; every
other element kind is likewise rejected before the backend, but with a
generic unsupported-format message.  The raw `[]byte` variant performs
no width validation. -/
theorem size_mismatch_rejected_before_backend (d : DeviceV0) (k : ElemKind) (bufLen : Nat)
    (ret : Int) (hs : supportedElem k = true)
    (hm : elemWidth k ≠ formatSampleSize d.Format) :
    ReadV0 d true k bufLen ret = some ⟨false, false, 0, some .size⟩ ∧
    WriteV0 d true k bufLen ret = some ⟨false, false, 0, some .size⟩ ∧
    (∀ w : Int, supportedElem (.other w) = false ∧
      ReadV0 d true (.other w) bufLen ret =
        some ⟨false, false, 0, some (.plain "Unsupported sample format")⟩) := by
  refine ⟨?_, ?_, fun w => ⟨rfl, by simp [ReadV0, readSizeCheck]⟩⟩ <;>
    cases k <;>
      simp_all [ReadV0, WriteV0, readSizeCheck, writeSizeCheck, elemWidth, supportedElem,
        ne_comm]

/-- C6 witness: an int8 buffer against an S16LE device is rejected with
`ErrSize` and no backend call, on both paths. -/
theorem size_mismatch_witness :
    ReadV0 ⟨2, .s16le⟩ true .int8 8 0 = some ⟨false, false, 0, some .size⟩ ∧
    WriteV0 ⟨2, .s16le⟩ true .int8 8 0 = some ⟨false, false, 0, some .size⟩ :=
  ⟨(size_mismatch_rejected_before_backend ⟨2, .s16le⟩ .int8 8 0 (by decide) (by decide)).1,
   (size_mismatch_rejected_before_backend ⟨2, .s16le⟩ .int8 8 0 (by decide) (by decide)).2.1⟩

/-- Evaluation of the set-then-get round trip on a non-degenerate
range: the stored native value shifted by min is exactly the scaled
term, so the result is `100 * ((p*(max-min))/100) / (max-min)` in
truncating division. -/
theorem volumeRoundTrip_eq (p min max : Int) (h : max - min ≠ 0) :
    volumeRoundTrip p min max =
      some (Int.tdiv (100 * Int.tdiv (p * (max - min)) 100) (max - min)) := by
  simp only [volumeRoundTrip, setMasterVolumeNative, getMasterVolumePercent]
  rw [if_neg h, add_sub_cancel_right]

/-- C7 counterexample: the round-trip claim fails for small native
ranges.  With range [0, 1] (max > min) and p = 50, set-then-get
returns 0, which is not within integer-rounding tolerance of 50. -/
theorem volume_round_trip_tiny_range :
    volumeRoundTrip 50 0 1 = some 0 ∧ (0 : Int) + 1 < 50 := by decide

/-- C7 (amended): for every percent 0 ≤ p ≤ 100 (in particular for
p in 0, 50, 100) and every native range spanning at least 100 steps,
setMasterVolume followed by getMasterVolume (with the backend storing
the set native value unchanged) returns a value r with
p - 1 ≤ r ≤ p; ranges narrower than the percent scale can lose the
value entirely, as the counterexample shows. -/
theorem volume_round_trip_within_one (p min max : Int)
    (hp0 : 0 ≤ p) (_hp1 : p ≤ 100) (hr : 100 ≤ max - min) :
    ∃ r, volumeRoundTrip p min max = some r ∧ p - 1 ≤ r ∧ r ≤ p := by
  have ht0 : (0 : Int) < max - min := by omega
  have htne : max - min ≠ 0 := by omega
  have hpt : 0 ≤ p * (max - min) := mul_nonneg hp0 (by omega)
  have hae : Int.tdiv (p * (max - min)) 100 = p * (max - min) / 100 :=
    Int.tdiv_eq_ediv hpt (by norm_num)
  have ha0 : 0 ≤ p * (max - min) / 100 := Int.ediv_nonneg hpt (by norm_num)
  have hre : Int.tdiv (100 * (p * (max - min) / 100)) (max - min) =
      100 * (p * (max - min) / 100) / (max - min) :=
    Int.tdiv_eq_ediv (by linarith) (by omega)
  have hid := Int.ediv_add_emod (p * (max - min)) 100
  have hm1 : p * (max - min) % 100 < 100 := Int.emod_lt_of_pos _ (by norm_num)
  have hm0 : 0 ≤ p * (max - min) % 100 := Int.emod_nonneg _ (by norm_num)
  refine ⟨Int.tdiv (100 * (p * (max - min) / 100)) (max - min), ?_, ?_, ?_⟩
  · rw [volumeRoundTrip_eq p min max htne, hae]
  · rw [hre, Int.le_ediv_iff_mul_le ht0]
    linarith
  · rw [hre]
    calc 100 * (p * (max - min) / 100) / (max - min)
        ≤ p * (max - min) / (max - min) := Int.ediv_le_ediv ht0 (by linarith)
      _ = p := Int.mul_ediv_cancel p (by omega)

/-- C7 witness: the amended theorem at p = 50 over the range
[0, 100]. -/
theorem volume_round_trip_within_one_witness :
    ∃ r, volumeRoundTrip 50 0 100 = some r ∧ 50 - 1 ≤ r ∧ r ≤ 50 :=
  volume_round_trip_within_one 50 0 100 (by decide) (by decide) (by decide)

/-- C8 counterexample: the claim fails on the alsa.go variant.  When
the backend release step fails, `Close` surfaces the error but the
handle field is NOT cleared: it is still set afterwards. -/
theorem close_failure_handle_not_cleared :
    (Close ⟨some ()⟩ (.error "e")).st.h = some () ∧
    ((Close ⟨some ()⟩ (.error "e")).st.h).isSome = true ∧
    (Close ⟨some ()⟩ (.error "e")).err = some ("Error closing device handle: e") := by
  decide

/-- C8 (amended): when the backend release step fails, the alsa.go
`Close` surfaces the failure to the caller but returns early, leaving
the handle set and the finalizer registered (so a later `Close` will
retry the release); the alternate variant's `Close` instead ignores the
release status entirely: it always clears the handle and can surface
nothing. -/
theorem close_failure_behavior (d : DeviceHandleState) (s : String)
    (hd : d.h = some ()) :
    Close d (.error s) =
      ⟨d, some ("Error closing device handle: " ++ s), true, true, false⟩ ∧
    (CloseV0 d).st.h = none ∧ (CloseV0 d).closeCalled = true := by
  obtain ⟨h⟩ := d
  cases h with
  | none => simp at hd
  | some u => simp [Close, CloseV0]

/-- C8 witness: the amended theorem at a live handle and a failing
release. -/
theorem close_failure_behavior_witness :
    Close ⟨some ()⟩ (.error "e") =
      ⟨⟨some ()⟩, some ("Error closing device handle: " ++ "e"), true, true, false⟩ ∧
    (CloseV0 ⟨some ()⟩).st.h = none ∧ (CloseV0 ⟨some ()⟩).closeCalled = true :=
  close_failure_behavior ⟨some ()⟩ "e" rfl

/-- C9: when the backend reports a native range with min = max, the
`GetMasterVolume` percent computation (identical in both variants)
divides by zero: a Go run-time panic, modelled `none`.  The division is
unguarded in the source. -/
theorem getMasterVolume_degenerate_range_panics (outvol m : Int) :
    getMasterVolumePercent outvol m m = none := by
  simp [getMasterVolumePercent]

/-- C10: a zero-length buffer makes `Read` and `Write` panic (modelled
`none`) instead of returning zero samples or an error: alsa.go panics
unconditionally at `&buffer[0]` (or already at the frame division when
`Channels` is zero), and the alternate variant panics at
`sliceData.Index(0)` once its element checks pass. -/
theorem zero_length_buffer_panics (audio : AudioParams) (d : DeviceV0) (k : ElemKind)
    (ret : Int) (hk : readSizeCheck d.Format k = none) (hch : d.Channels ≠ 0) :
    Read audio 0 ret = none ∧ Write audio 0 ret = none ∧ ReadV0 d true k 0 ret = none := by
  refine ⟨?_, ?_, ?_⟩
  · unfold Read
    split_ifs <;> simp_all
  · unfold Write
    split_ifs <;> simp_all
  · simp [ReadV0, hk, hch]

/-- C10 witness: an empty buffer on a stereo S16LE device panics on
every path. -/
theorem zero_length_buffer_panics_witness :
    Read ⟨2, 44100, .s16le⟩ 0 0 = none ∧ Write ⟨2, 44100, .s16le⟩ 0 0 = none ∧
    ReadV0 ⟨2, .s16le⟩ true .int16 0 0 = none :=
  zero_length_buffer_panics ⟨2, 44100, .s16le⟩ ⟨2, .s16le⟩ .int16 0 (by decide) (by decide)

end Goalsa
